import Mathlib

/-!
Verification development for the kalpy client library.

Part 1 models the record value resolver (`kalpy/records.py`,
`Record.get_value_content`): a record stores, per field, a list of value
entries; resolution filters the list by optional activity / sub-record
scopes and selects the most recent surviving entry.

Part 2 models the transport/auth client (`kalpy/client.py`,
`KaleidoscopeClient`): bearer-token lifecycle (client-credentials
exchange, proactive refresh) and the six call-level primitive operations.

Python timestamps (`datetime`) are embedded as natural numbers under an
order-preserving encoding; `datetime.min`, the least representable
timestamp, is `0`.  Python `None` becomes `Option.none`.  Content payloads
(`Any` in the source) become a type parameter.
-/

namespace Kalpy

/-- Embedding of Python `datetime.min`, the least representable timestamp. -/
def datetimeMin : Nat := 0

/-- One entry in a field's value history (`RecordValue` in `kalpy/records.py`).
`content` is the stored payload (`Any` in the source, a type parameter here);
`created_at`, `record_id` and `operation_id` are nullable. -/
structure RecordValue (α : Type) where
  id : String
  content : α
  created_at : Option Nat := none
  record_id : Option String := none
  operation_id : Option String := none
deriving Repr, DecidableEq

/-- A record (`Record` in `kalpy/records.py`): an id plus a mapping from
field id to that field's ordered value history (a Python dict, embedded as
an association list), and bookkeeping fields. -/
structure Record (α : Type) where
  id : String
  created_at : Nat
  entity_slice_id : String
  identifier_ids : List String
  record_identifier : String
  record_values : List (String × List (RecordValue α))
  initial_operation_id : Option String := none
  sub_record_ids : List String
deriving Repr, DecidableEq

/-- The sort key of `Record.get_value_content`:
`x.created_at if x.created_at else datetime.min` (every `datetime` is
truthy in Python, so the conditional is a null test). -/
def sortKeyFn {α : Type} (v : RecordValue α) : Nat :=
  match v.created_at with
  | some t => t
  | none => datetimeMin

/-- The activity-scope filter of `get_value_content`: when an
`activity_id` is passed, keep `value.operation_id == activity_id or
value.record_id is None`. -/
def activityFilter {α : Type} (activity_id : Option String)
    (values : List (RecordValue α)) : List (RecordValue α) :=
  match activity_id with
  | none => values
  | some aid => values.filter fun v => v.operation_id == some aid || v.record_id == none

/-- The sub-record exclusion filter of `get_value_content`: unless
`include_sub_record_values`, keep `value.record_id == self.id or
value.record_id is None`. -/
def subRecordExclusionFilter {α : Type} (recId : String)
    (include_sub_record_values : Bool)
    (values : List (RecordValue α)) : List (RecordValue α) :=
  if include_sub_record_values then values
  else values.filter fun v => v.record_id == some recId || v.record_id == none

/-- The sub-record scope filter of `get_value_content`:
`if sub_record_id:` is a Python truthiness test, so both `None` and the
empty string skip the filter; otherwise keep
`value.record_id == sub_record_id`. -/
def subRecordScopeFilter {α : Type} (sub_record_id : Option String)
    (values : List (RecordValue α)) : List (RecordValue α) :=
  match sub_record_id with
  | none => values
  | some sid =>
    if sid = "" then values
    else values.filter fun v => v.record_id == some sid

/-- The three filters of `get_value_content`, in source order. -/
def filterValues {α : Type} (rec : Record α) (activity_id : Option String)
    (include_sub_record_values : Bool) (sub_record_id : Option String)
    (values : List (RecordValue α)) : List (RecordValue α) :=
  subRecordScopeFilter sub_record_id
    (subRecordExclusionFilter rec.id include_sub_record_values
      (activityFilter activity_id values))

/-- Insert an element into a list already sorted in descending `sortKeyFn`
order, after all elements of greater-or-equal key (so that a later-arriving
element never jumps ahead of an equal-key earlier one). -/
def insertDesc {α : Type} (x : RecordValue α) :
    List (RecordValue α) → List (RecordValue α)
  | [] => [x]
  | y :: ys =>
    if sortKeyFn x ≤ sortKeyFn y then y :: insertDesc x ys
    else x :: y :: ys

/-- Embedding of Python `sorted(values, key=..., reverse=True)`: a stable
sort in descending key order (equal-key elements keep their original
relative order, as CPython's sort guarantees). -/
def sortedDescByKey {α : Type} (l : List (RecordValue α)) : List (RecordValue α) :=
  l.foldl (fun acc x => insertDesc x acc) []

/-- Embeds `Record.get_value_content` from `kalpy/records.py`: look up the
field's value list (`None`-or-empty short-circuits to `None`), apply the
three scope filters in order, stably sort descending by `created_at`
(null mapped to `datetime.min`), and return the head's content. -/
def get_value_content {α : Type} (rec : Record α) (field_id : String)
    (activity_id : Option String := none)
    (include_sub_record_values : Bool := false)
    (sub_record_id : Option String := none) : Option α :=
  match rec.record_values.lookup field_id with
  | none => none
  | some values =>
    if values.isEmpty then none
    else
      ((sortedDescByKey
          (filterValues rec activity_id include_sub_record_values
            sub_record_id values)).head?).map (·.content)

/-- The element the resolver's sort-then-head selection returns: the first
list element attaining the maximal key (a specification-level recursion,
proved below to coincide with `(sortedDescByKey l).head?`). -/
def firstMaxByKey {α : Type} : List (RecordValue α) → Option (RecordValue α)
  | [] => none
  | x :: xs =>
    some (xs.foldl (fun best y => if sortKeyFn best < sortKeyFn y then y else best) x)

/-- Maximum effective key of a value list (`0` for the empty list). -/
def maxKeyOf {α : Type} (l : List (RecordValue α)) : Nat :=
  l.foldl (fun m v => max m (sortKeyFn v)) 0

theorem head?_insertDesc_of_head? {α : Type} (x b : RecordValue α)
    (l : List (RecordValue α)) (h : l.head? = some b) :
    (insertDesc x l).head? =
      some (if sortKeyFn x ≤ sortKeyFn b then b else x) := by
  cases l with
  | nil => simp at h
  | cons y ys =>
    simp only [List.head?_cons, Option.some.injEq] at h
    subst h
    by_cases hk : sortKeyFn x ≤ sortKeyFn y
    · simp [insertDesc, hk]
    · simp [insertDesc, hk]

theorem head?_foldl_insertDesc {α : Type} (xs : List (RecordValue α)) :
    ∀ (acc : List (RecordValue α)) (b : RecordValue α), acc.head? = some b →
      ((xs.foldl (fun a x => insertDesc x a) acc).head? =
        some (xs.foldl (fun best y =>
          if sortKeyFn best < sortKeyFn y then y else best) b)) := by
  induction xs with
  | nil => intro acc b h; simpa using h
  | cons x xs ih =>
    intro acc b h
    simp only [List.foldl_cons]
    apply ih
    rw [head?_insertDesc_of_head? x b acc h]
    by_cases hk : sortKeyFn b < sortKeyFn x
    · rw [if_pos hk, if_neg (by omega)]
    · rw [if_neg hk, if_pos (by omega)]

theorem head?_sortedDescByKey {α : Type} (l : List (RecordValue α)) :
    (sortedDescByKey l).head? = firstMaxByKey l := by
  cases l with
  | nil => rfl
  | cons x xs =>
    have h0 : (insertDesc x ([] : List (RecordValue α))).head? = some x := rfl
    exact head?_foldl_insertDesc xs (insertDesc x []) x h0

theorem le_foldl_maxKey {α : Type} (ys : List (RecordValue α)) :
    ∀ b : Nat, b ≤ ys.foldl (fun m v => max m (sortKeyFn v)) b := by
  induction ys with
  | nil => intro b; exact le_refl b
  | cons y ys ih =>
    intro b
    exact le_trans (le_max_left b (sortKeyFn y)) (ih (max b (sortKeyFn y)))

theorem mem_le_foldl_maxKey {α : Type} (ys : List (RecordValue α)) :
    ∀ (b : Nat) (v : RecordValue α), v ∈ ys →
      sortKeyFn v ≤ ys.foldl (fun m v => max m (sortKeyFn v)) b := by
  induction ys with
  | nil => intro b v hv; simp at hv
  | cons y ys ih =>
    intro b v hv
    rcases List.mem_cons.mp hv with h | h
    · subst h
      exact le_trans (le_max_right b (sortKeyFn v))
        (le_foldl_maxKey ys (max b (sortKeyFn v)))
    · exact ih (max b (sortKeyFn y)) v h

theorem foldl_best_of_dominant {α : Type} (ys : List (RecordValue α)) :
    ∀ best : RecordValue α, (∀ v ∈ ys, sortKeyFn v ≤ sortKeyFn best) →
      ys.foldl (fun best y => if sortKeyFn best < sortKeyFn y then y else best) best
        = best := by
  induction ys with
  | nil => intro best _; rfl
  | cons y ys ih =>
    intro best hdom
    have hy : sortKeyFn y ≤ sortKeyFn best := hdom y (List.mem_cons_self y ys)
    simp only [List.foldl_cons, if_neg (by omega : ¬ sortKeyFn best < sortKeyFn y)]
    exact ih best (fun v hv => hdom v (List.mem_cons_of_mem y hv))

theorem firstMax_eq_find?_aux {α : Type} (xs : List (RecordValue α)) :
    ∀ x : RecordValue α,
      (x :: xs).find? (fun v => sortKeyFn v ==
          xs.foldl (fun m v => max m (sortKeyFn v)) (sortKeyFn x)) =
        some (xs.foldl (fun best y =>
          if sortKeyFn best < sortKeyFn y then y else best) x) := by
  induction xs with
  | nil =>
    intro x
    simp [List.find?]
  | cons y ys ih =>
    intro x
    by_cases hxy : sortKeyFn x < sortKeyFn y
    · have hmax : max (sortKeyFn x) (sortKeyFn y) = sortKeyFn y := by omega
      have hM : sortKeyFn x <
          ys.foldl (fun m v => max m (sortKeyFn v)) (sortKeyFn y) :=
        lt_of_lt_of_le hxy (le_foldl_maxKey ys (sortKeyFn y))
      have hpx : (sortKeyFn x ==
          ys.foldl (fun m v => max m (sortKeyFn v)) (sortKeyFn y)) = false := by
        simp only [beq_eq_false_iff_ne]; omega
      simp only [List.foldl_cons, hmax, if_pos hxy]
      rw [List.find?_cons_of_neg _ (by simp [hpx]), ih y]
    · have hyx : sortKeyFn y ≤ sortKeyFn x := by omega
      have hmax : max (sortKeyFn x) (sortKeyFn y) = sortKeyFn x := by omega
      simp only [List.foldl_cons, hmax, if_neg hxy]
      by_cases hpx : sortKeyFn x =
          ys.foldl (fun m v => max m (sortKeyFn v)) (sortKeyFn x)
      · rw [List.find?_cons_of_pos _ (by simp [← hpx])]
        have hdom : ∀ v ∈ ys, sortKeyFn v ≤ sortKeyFn x := by
          intro v hv
          have := mem_le_foldl_maxKey ys (sortKeyFn x) v hv
          omega
        rw [foldl_best_of_dominant ys x hdom]
      · have hxle : sortKeyFn x ≤
            ys.foldl (fun m v => max m (sortKeyFn v)) (sortKeyFn x) :=
          le_foldl_maxKey ys (sortKeyFn x)
        have hpy : sortKeyFn y ≠
            ys.foldl (fun m v => max m (sortKeyFn v)) (sortKeyFn x) := by omega
        rw [List.find?_cons_of_neg _ (by simp [hpx]),
            List.find?_cons_of_neg _ (by simp [hpy])]
        have := ih x
        rw [List.find?_cons_of_neg _ (by simp [hpx])] at this
        exact this

theorem maxKeyOf_cons {α : Type} (x : RecordValue α) (xs : List (RecordValue α)) :
    maxKeyOf (x :: xs) =
      xs.foldl (fun m v => max m (sortKeyFn v)) (sortKeyFn x) := by
  simp [maxKeyOf, List.foldl_cons, Nat.zero_max]

theorem head?_sorted_eq_find?_maxKey {α : Type} (l : List (RecordValue α)) :
    (sortedDescByKey l).head? = l.find? (fun v => sortKeyFn v == maxKeyOf l) := by
  cases l with
  | nil => rfl
  | cons x xs =>
    rw [head?_sortedDescByKey, maxKeyOf_cons, firstMax_eq_find?_aux xs x]
    rfl

theorem head?_sorted_isSome_of_ne_nil {α : Type} (l : List (RecordValue α))
    (h : l ≠ []) : ∃ w, (sortedDescByKey l).head? = some w := by
  cases l with
  | nil => exact absurd rfl h
  | cons x xs =>
    rw [head?_sortedDescByKey]
    exact ⟨_, rfl⟩

theorem foldl_maxKey_le {α : Type} (ys : List (RecordValue α)) :
    ∀ (b c : Nat), b ≤ c → (∀ w ∈ ys, sortKeyFn w ≤ c) →
      ys.foldl (fun m v => max m (sortKeyFn v)) b ≤ c := by
  induction ys with
  | nil => intro b c hbc _; exact hbc
  | cons y ys ih =>
    intro b c hbc hall
    have hy : sortKeyFn y ≤ c := hall y (List.mem_cons_self y ys)
    exact ih (max b (sortKeyFn y)) c (by omega)
      (fun w hw => hall w (List.mem_cons_of_mem y hw))

theorem mem_le_maxKeyOf {α : Type} (l : List (RecordValue α)) (v : RecordValue α)
    (hv : v ∈ l) : sortKeyFn v ≤ maxKeyOf l :=
  mem_le_foldl_maxKey l 0 v hv

theorem maxKeyOf_le {α : Type} (l : List (RecordValue α)) (c : Nat)
    (hall : ∀ w ∈ l, sortKeyFn w ≤ c) : maxKeyOf l ≤ c :=
  foldl_maxKey_le l 0 c (Nat.zero_le c) hall

theorem pairwise_ne_inj {β γ : Type} (f : β → γ) :
    ∀ (l : List β), l.Pairwise (fun a b => f a ≠ f b) →
      ∀ a ∈ l, ∀ b ∈ l, f a = f b → a = b := by
  intro l
  induction l with
  | nil => intro _ a ha; simp at ha
  | cons x xs ih =>
    intro hpw a ha b hb hfab
    have hx := List.pairwise_cons.mp hpw
    rcases List.mem_cons.mp ha with ha1 | ha1 <;>
      rcases List.mem_cons.mp hb with hb1 | hb1
    · rw [ha1, hb1]
    · exact absurd hfab (ha1 ▸ hx.1 b hb1)
    · exact absurd hfab.symm (hb1 ▸ hx.1 a ha1)
    · exact ih hx.2 a ha1 b hb1 hfab

/-- The resolver's selection, characterized: when the field exists with a
nonempty history, the result is the content of the first surviving entry
whose effective timestamp attains the maximum. -/
theorem get_value_content_eq_find? {α : Type} (rec : Record α) (field_id : String)
    (activity_id : Option String) (include_sub_record_values : Bool)
    (sub_record_id : Option String) (values : List (RecordValue α))
    (hlk : rec.record_values.lookup field_id = some values) (hne : values ≠ []) :
    get_value_content rec field_id activity_id include_sub_record_values sub_record_id =
      ((filterValues rec activity_id include_sub_record_values sub_record_id
          values).find?
        (fun v => sortKeyFn v ==
          maxKeyOf (filterValues rec activity_id include_sub_record_values
            sub_record_id values))).map (fun v => v.content) := by
  unfold get_value_content
  rw [hlk]
  have hemp : values.isEmpty = false := by
    cases values with
    | nil => exact absurd rfl hne
    | cons a l => rfl
  simp only [hemp, Bool.false_eq_true, if_false, head?_sorted_eq_find?_maxKey]

theorem filterValues_unscoped {α : Type} (rec : Record α)
    (values : List (RecordValue α))
    (h : ∀ w ∈ values, w.record_id = some rec.id ∨ w.record_id = none) :
    filterValues rec none false none values = values := by
  unfold filterValues subRecordScopeFilter subRecordExclusionFilter activityFilter
  simp only [Bool.false_eq_true, if_false]
  apply List.filter_eq_self.mpr
  intro w hw
  rcases h w hw with h1 | h1 <;> simp [h1]

theorem mem_of_mem_subRecordScopeFilter {α : Type} (sid : Option String)
    (l : List (RecordValue α)) (w : RecordValue α)
    (h : w ∈ subRecordScopeFilter sid l) : w ∈ l := by
  cases sid with
  | none => exact h
  | some s =>
    simp only [subRecordScopeFilter] at h
    by_cases hs : s = ""
    · rw [if_pos hs] at h; exact h
    · rw [if_neg hs] at h; exact List.mem_of_mem_filter h

theorem record_id_of_mem_exclusionFilter {α : Type} (recId : String)
    (l : List (RecordValue α)) (w : RecordValue α)
    (h : w ∈ subRecordExclusionFilter recId false l) :
    w.record_id = some recId ∨ w.record_id = none := by
  unfold subRecordExclusionFilter at h
  simp only [Bool.false_eq_true, if_false] at h
  have hp := (List.mem_filter.mp h).2
  simp only [Bool.or_eq_true] at hp
  rcases hp with h1 | h1
  · exact Or.inl (by simpa using h1)
  · exact Or.inr (by simpa using h1)

theorem mem_of_mem_exclusionFilter {α : Type} (recId : String) (inc : Bool)
    (l : List (RecordValue α)) (w : RecordValue α)
    (h : w ∈ subRecordExclusionFilter recId inc l) : w ∈ l := by
  unfold subRecordExclusionFilter at h
  cases inc with
  | true => exact h
  | false =>
    simp only [Bool.false_eq_true, if_false] at h
    exact List.mem_of_mem_filter h

theorem mem_of_mem_activityFilter {α : Type} (aid : Option String)
    (l : List (RecordValue α)) (w : RecordValue α)
    (h : w ∈ activityFilter aid l) : w ∈ l := by
  unfold activityFilter at h
  cases aid with
  | none => exact h
  | some a => exact List.mem_of_mem_filter h

theorem find?_maxKey_isSome {α : Type} (l : List (RecordValue α)) (hne : l ≠ []) :
    ∃ w, l.find? (fun v => sortKeyFn v == maxKeyOf l) = some w := by
  obtain ⟨w, hw⟩ := head?_sorted_isSome_of_ne_nil l hne
  rw [head?_sorted_eq_find?_maxKey] at hw
  exact ⟨w, hw⟩

/-- Concrete record for the C3 scenario: two key values (null `record_id`),
"A" attributed to activity `op1` and older, "B" unattributed and newer. -/
def recScenario : Record String :=
  { id := "rec1", created_at := 0, entity_slice_id := "slice1",
    identifier_ids := [], record_identifier := "R-1",
    record_values := [("field1",
      [{ id := "v1", content := "A", created_at := some 20240101,
         record_id := none, operation_id := some "op1" },
       { id := "v2", content := "B", created_at := some 20240601,
         record_id := none, operation_id := none }])],
    sub_record_ids := [] }

/-- C3: for the two-element list `[A (2024-01-01, record_id null, op1),
B (2024-06-01, record_id null, no op)]`, resolving scoped to activity
`op1` returns `"B"`: both entries survive the activity filter through the
null-`record_id` OR-branch, and the newer entry wins. -/
theorem resolver_activity_scope_scenario :
    get_value_content recScenario "field1" (some "op1") false none = some "B" := by
  decide

/-- C4: with every entry carrying a distinct non-null `created_at`, no
scoping options, and every `record_id` equal to the record's own id or
null, resolution returns the content of the entry with the maximal
timestamp. -/
theorem resolver_returns_max_created_at {α : Type} (rec : Record α)
    (field_id : String) (values : List (RecordValue α)) (v : RecordValue α)
    (hlk : rec.record_values.lookup field_id = some values)
    (hsome : ∀ w ∈ values, w.created_at.isSome)
    (huniq : values.Pairwise (fun a b => a.created_at ≠ b.created_at))
    (hscope : ∀ w ∈ values, w.record_id = some rec.id ∨ w.record_id = none)
    (hv : v ∈ values)
    (hmax : ∀ w ∈ values, sortKeyFn w ≤ sortKeyFn v) :
    get_value_content rec field_id none false none = some v.content := by
  have hne : values ≠ [] := by
    intro h; rw [h] at hv; simp at hv
  rw [get_value_content_eq_find? rec field_id none false none values hlk hne,
      filterValues_unscoped rec values hscope]
  have hMv : sortKeyFn v = maxKeyOf values :=
    le_antisymm (mem_le_maxKeyOf values v hv) (maxKeyOf_le values _ hmax)
  obtain ⟨w, hw⟩ := find?_maxKey_isSome values hne
  have hwmem := List.mem_of_find?_eq_some hw
  have hwkey : sortKeyFn w = maxKeyOf values := by
    have := List.find?_some hw
    simpa using this
  obtain ⟨tw, htw⟩ := Option.isSome_iff_exists.mp (hsome w hwmem)
  obtain ⟨tv, htv⟩ := Option.isSome_iff_exists.mp (hsome v hv)
  have hkw : sortKeyFn w = tw := by simp [sortKeyFn, htw]
  have hkv : sortKeyFn v = tv := by simp [sortKeyFn, htv]
  have hca : w.created_at = v.created_at := by
    rw [htw, htv]
    have : tw = tv := by omega
    rw [this]
  have hwv : w = v :=
    pairwise_ne_inj (fun r => r.created_at) values huniq w hwmem v hv hca
  rw [hw, hwv]
  rfl

/-- C5 amendment: every entry with a non-null timestamp beats every entry
with a null timestamp, provided the non-null timestamps are strictly
later than `datetime.min` (a non-null timestamp exactly equal to
`datetime.min` ties with null ones and can lose on list order). -/
theorem resolver_prefers_timestamped {α : Type} (rec : Record α)
    (field_id : String) (values : List (RecordValue α))
    (hlk : rec.record_values.lookup field_id = some values)
    (hscope : ∀ w ∈ values, w.record_id = some rec.id ∨ w.record_id = none)
    (hpos : ∀ w ∈ values, ∀ t, w.created_at = some t → datetimeMin < t)
    (_hnull : ∃ w ∈ values, w.created_at = none)
    (hts : ∃ w ∈ values, w.created_at ≠ none) :
    ∃ w ∈ values, w.created_at ≠ none ∧
      get_value_content rec field_id none false none = some w.content := by
  obtain ⟨w0, hw0mem, hw0⟩ := hts
  have hne : values ≠ [] := by
    intro h; rw [h] at hw0mem; simp at hw0mem
  obtain ⟨w, hw⟩ := find?_maxKey_isSome values hne
  have hwmem := List.mem_of_find?_eq_some hw
  have hwkey : sortKeyFn w = maxKeyOf values := by
    have := List.find?_some hw
    simpa using this
  obtain ⟨t0, ht0⟩ : ∃ t0, w0.created_at = some t0 := by
    cases h0 : w0.created_at with
    | none => exact absurd h0 hw0
    | some t => exact ⟨t, rfl⟩
  have hk0 : sortKeyFn w0 = t0 := by simp [sortKeyFn, ht0]
  have ht0pos : datetimeMin < t0 := hpos w0 hw0mem t0 ht0
  have hM : datetimeMin < maxKeyOf values := by
    have := mem_le_maxKeyOf values w0 hw0mem
    omega
  have hwts : w.created_at ≠ none := by
    intro hn
    have : sortKeyFn w = datetimeMin := by simp [sortKeyFn, hn]
    omega
  refine ⟨w, hwmem, hwts, ?_⟩
  rw [get_value_content_eq_find? rec field_id none false none values hlk hne,
      filterValues_unscoped rec values hscope, hw]
  rfl

/-- Value entry "A" with a null `created_at`. -/
def valNullA : RecordValue String :=
  { id := "v1", content := "A", created_at := none,
    record_id := none, operation_id := none }

/-- Value entry "B" whose non-null `created_at` is exactly `datetime.min`. -/
def valMinB : RecordValue String :=
  { id := "v2", content := "B", created_at := some datetimeMin,
    record_id := none, operation_id := none }

/-- Concrete record refuting C5 as stated: entry "A" has a null
`created_at`, entry "B" has the non-null timestamp `datetime.min`; both
sort keys are `datetime.min`, the stable sort keeps "A" first, and the
null-timestamped "A" is returned over the timestamped "B". -/
def recNullTie : Record String :=
  { id := "recNT", created_at := 0, entity_slice_id := "slice1",
    identifier_ids := [], record_identifier := "R-NT",
    record_values := [("field1", [valNullA, valMinB])],
    sub_record_ids := [] }

/-- C5 counterexample: `recNullTie`'s field mixes null and non-null
timestamps, the only entry with content "A" is the null-timestamped one,
yet unscoped resolution returns "A" — so a null-timestamped entry is not
always beaten by a timestamped one. -/
theorem resolver_prefers_timestamped_counterexample :
    recNullTie.record_values.lookup "field1" = some [valNullA, valMinB] ∧
    (∃ w ∈ [valNullA, valMinB], w.created_at = none) ∧
    (∃ w ∈ [valNullA, valMinB], w.created_at ≠ none) ∧
    (∀ w ∈ [valNullA, valMinB], w.content = "A" → w.created_at = none) ∧
    get_value_content recNullTie "field1" none false none = some "A" := by
  decide

/-- C6: with `include_sub_record_values = false`, whatever the other
scoping options, a resolved content always comes from an entry whose
`record_id` is the record's own id or null — never from a sub-record's
entry. -/
theorem resolver_excludes_sub_record_values {α : Type} (rec : Record α)
    (field_id : String) (activity_id : Option String)
    (sub_record_id : Option String) (c : α)
    (h : get_value_content rec field_id activity_id false sub_record_id = some c) :
    ∃ values w, rec.record_values.lookup field_id = some values ∧ w ∈ values ∧
      w.content = c ∧ (w.record_id = some rec.id ∨ w.record_id = none) := by
  unfold get_value_content at h
  cases hlk : rec.record_values.lookup field_id with
  | none => rw [hlk] at h; simp at h
  | some values =>
    rw [hlk] at h
    by_cases hemp : values.isEmpty
    · simp [hemp] at h
    · have hemp' : values.isEmpty = false := by
        cases he : values.isEmpty
        · rfl
        · exact absurd he hemp
      simp only [hemp', Bool.false_eq_true, if_false] at h
      obtain ⟨w, hhead, hcw⟩ := Option.map_eq_some'.mp h
      rw [head?_sorted_eq_find?_maxKey] at hhead
      have hmemf := List.mem_of_find?_eq_some hhead
      have hmem2 := mem_of_mem_subRecordScopeFilter sub_record_id _ w hmemf
      have hprop := record_id_of_mem_exclusionFilter rec.id _ w hmem2
      have hmem3 := mem_of_mem_exclusionFilter rec.id false _ w hmem2
      have hmem4 := mem_of_mem_activityFilter activity_id values w hmem3
      exact ⟨values, w, rfl, hmem4, hcw, hprop⟩

/-- C10: resolution refines "first entry attaining the maximal effective
timestamp": the result is `find?` of the max-key test over the filtered
list (`find?` returns the earliest match in list order, so timestamp ties
are broken deterministically by original position), and any entry `find?`
returns is a surviving entry of maximal key. -/
theorem resolver_tie_break_earliest {α : Type} (rec : Record α)
    (field_id : String) (activity_id : Option String)
    (include_sub_record_values : Bool) (sub_record_id : Option String)
    (values : List (RecordValue α))
    (hlk : rec.record_values.lookup field_id = some values)
    (hne : values ≠ []) :
    get_value_content rec field_id activity_id include_sub_record_values
        sub_record_id =
      ((filterValues rec activity_id include_sub_record_values sub_record_id
          values).find?
        (fun v => sortKeyFn v ==
          maxKeyOf (filterValues rec activity_id include_sub_record_values
            sub_record_id values))).map (fun v => v.content) ∧
    ∀ w, (filterValues rec activity_id include_sub_record_values sub_record_id
          values).find?
        (fun v => sortKeyFn v ==
          maxKeyOf (filterValues rec activity_id include_sub_record_values
            sub_record_id values)) = some w →
      w ∈ filterValues rec activity_id include_sub_record_values sub_record_id
          values ∧
        sortKeyFn w = maxKeyOf (filterValues rec activity_id
          include_sub_record_values sub_record_id values) := by
  constructor
  · exact get_value_content_eq_find? rec field_id activity_id
      include_sub_record_values sub_record_id values hlk hne
  · intro w hw
    refine ⟨List.mem_of_find?_eq_some hw, ?_⟩
    have := List.find?_some hw
    simpa using this

/-- Witness value: own-record entry, older. -/
def valOwnOld : RecordValue String :=
  { id := "w1", content := "A", created_at := some 1,
    record_id := some "recMax", operation_id := none }

/-- Witness value: key entry, newer. -/
def valKeyNew : RecordValue String :=
  { id := "w2", content := "B", created_at := some 2,
    record_id := none, operation_id := none }

/-- Witness record for the maximal-timestamp property. -/
def recMax : Record String :=
  { id := "recMax", created_at := 0, entity_slice_id := "slice1",
    identifier_ids := [], record_identifier := "R-MAX",
    record_values := [("f", [valOwnOld, valKeyNew])],
    sub_record_ids := [] }

theorem resolver_returns_max_created_at_witness :
    get_value_content recMax "f" none false none = some "B" :=
  resolver_returns_max_created_at recMax "f" [valOwnOld, valKeyNew] valKeyNew
    (by decide) (by decide) (by decide) (by decide) (by decide) (by decide)

/-- Witness value: null timestamp. -/
def valNoTs : RecordValue String :=
  { id := "w1", content := "A", created_at := none,
    record_id := none, operation_id := none }

/-- Witness value: real (positive) timestamp. -/
def valWithTs : RecordValue String :=
  { id := "w2", content := "B", created_at := some 5,
    record_id := none, operation_id := none }

/-- Witness record mixing null and non-null timestamps. -/
def recMixTs : Record String :=
  { id := "recMix", created_at := 0, entity_slice_id := "slice1",
    identifier_ids := [], record_identifier := "R-MIX",
    record_values := [("f", [valNoTs, valWithTs])],
    sub_record_ids := [] }

theorem resolver_prefers_timestamped_witness :
    ∃ w ∈ [valNoTs, valWithTs], w.created_at ≠ none ∧
      get_value_content recMixTs "f" none false none = some w.content :=
  resolver_prefers_timestamped recMixTs "f" [valNoTs, valWithTs]
    (by decide) (by decide) (by decide) (by decide) (by decide)

/-- Witness value: contributed by a sub-record, newer. -/
def valSub : RecordValue String :=
  { id := "w1", content := "S", created_at := some 9,
    record_id := some "sub1", operation_id := none }

/-- Witness value: the record's own entry, older. -/
def valOwn : RecordValue String :=
  { id := "w2", content := "O", created_at := some 1,
    record_id := some "recSub", operation_id := none }

/-- Witness record holding one sub-record value and one own value. -/
def recSub : Record String :=
  { id := "recSub", created_at := 0, entity_slice_id := "slice1",
    identifier_ids := [], record_identifier := "R-SUB",
    record_values := [("f", [valSub, valOwn])],
    sub_record_ids := ["sub1"] }

theorem resolver_excludes_sub_record_values_witness :
    ∃ values w, recSub.record_values.lookup "f" = some values ∧ w ∈ values ∧
      w.content = "O" ∧
      (w.record_id = some recSub.id ∨ w.record_id = none) :=
  resolver_excludes_sub_record_values recSub "f" none none "O" (by decide)

/-- Witness value: first of two entries tied at the same timestamp. -/
def valTieFirst : RecordValue String :=
  { id := "w1", content := "A", created_at := some 5,
    record_id := none, operation_id := none }

/-- Witness value: second of two entries tied at the same timestamp. -/
def valTieSecond : RecordValue String :=
  { id := "w2", content := "B", created_at := some 5,
    record_id := none, operation_id := none }

/-- Witness record with a timestamp tie. -/
def recTie : Record String :=
  { id := "recTie", created_at := 0, entity_slice_id := "slice1",
    identifier_ids := [], record_identifier := "R-TIE",
    record_values := [("f", [valTieFirst, valTieSecond])],
    sub_record_ids := [] }

theorem resolver_tie_break_earliest_witness :
    get_value_content recTie "f" none false none =
      ((filterValues recTie none false none [valTieFirst, valTieSecond]).find?
        (fun v => sortKeyFn v ==
          maxKeyOf (filterValues recTie none false none
            [valTieFirst, valTieSecond]))).map (fun v => v.content) ∧
    ∀ w, (filterValues recTie none false none
          [valTieFirst, valTieSecond]).find?
        (fun v => sortKeyFn v ==
          maxKeyOf (filterValues recTie none false none
            [valTieFirst, valTieSecond])) = some w →
      w ∈ filterValues recTie none false none [valTieFirst, valTieSecond] ∧
        sortKeyFn w = maxKeyOf (filterValues recTie none false none
          [valTieFirst, valTieSecond]) :=
  resolver_tie_break_earliest recTie "f" none false none
    [valTieFirst, valTieSecond] (by decide) (by decide)

/-- A Python attribute slot: `unset` is a never-assigned attribute (the
source only annotates `_access_token`, `_refresh_token` and
`_refresh_before` at class level, which assigns nothing), and reading an
unset slot raises `AttributeError`. -/
inductive Attr (α : Type)
  | unset
  | val (x : α)
deriving Repr, DecidableEq

/-- A Python exception escaping one of the client's methods. -/
inductive PyError
  | attributeError (name : String)
deriving Repr, DecidableEq

/-- Constant `PROD_API_URL` from `kalpy/client.py`. -/
def PROD_API_URL : String := "https://api.kaleidoscope.bio"

/-- Constant `VALID_CONTENT_TYPES` from `kalpy/client.py`: CSV, SDF, XLSX. -/
def VALID_CONTENT_TYPES : List String :=
  ["text/csv", "chemical/x-mdl-sdfile",
   "application/vnd.openxmlformats-officedocument.spreadsheetml.sheet"]

/-- Constant `TIMEOUT_MAXIMUM` from `kalpy/client.py` (seconds). -/
def TIMEOUT_MAXIMUM : Nat := 10

/-- Parsed JSON body of the token endpoint (`TokenResponse` shape);
`data.get(key)` yields `None` for a missing key, hence the `Option`
fields.  Timestamps and lifetimes are integer seconds. -/
structure TokenData where
  access_token : Option String
  refresh_token : Option String
  expires_in : Int
deriving Repr, DecidableEq

/-- The token endpoint's HTTP response: status code plus parsed body. -/
structure TokenEndpointResponse where
  status_code : Nat
  data : TokenData
deriving Repr, DecidableEq

/-- An HTTP response to a primitive call: status code, parsed JSON body
(`none` embeds a body that raises `JSONDecodeError`), and the
`Content-Type` header (`resp.headers.get("Content-Type", "")`). -/
structure HttpResponse (J : Type) where
  status_code : Nat
  jsonBody : Option J
  contentTypeHeader : String := ""
deriving Repr, DecidableEq

/-- The mutable state of one `KaleidoscopeClient` instance: immutable
credentials and base url from construction, plus the three token
attributes, each possibly unset. -/
structure ClientState where
  api_url : String
  client_id : String
  client_secret : String
  access_token : Attr (Option String)
  refresh_token : Attr (Option String)
  last_refreshed_at : Attr Int
deriving Repr, DecidableEq

/-- One outbound network request, recorded so theorems can speak about
which calls an operation makes and in what order. -/
inductive Request
  | tokenClientCredentials
  | tokenRefresh
  | http (method : String) (url : String)
deriving Repr, DecidableEq

/-- One diagnostic printed by the client. -/
inductive LogEntry
  | authTokenFailure
  | refreshFailure
  | httpFailure (method : String) (url : String) (status_code : Nat)
  | invalidContentType (content_type : String)
deriving Repr, DecidableEq

/-- Embeds `_update_tokens`: store the token pair and set `_last_refreshed_at`
to `datetime.now() + timedelta(seconds=expires_in - 60*10)` — issuance
time plus the server-declared lifetime minus a 10-minute buffer. -/
def update_tokens (now : Int) (data : TokenData) (s : ClientState) : ClientState :=
  { s with access_token := Attr.val data.access_token,
           refresh_token := Attr.val data.refresh_token,
           last_refreshed_at := Attr.val (now + (data.expires_in - 60 * 10)) }

/-- Embeds `_get_auth_token`: the client-credentials exchange; on HTTP ≥ 400
print a diagnostic and return with the state untouched, otherwise store
the new tokens.  Returns the state plus the requests issued and the
diagnostics printed. -/
def get_auth_token (now : Int) (tokenResp : TokenEndpointResponse)
    (s : ClientState) : ClientState × List Request × List LogEntry :=
  if tokenResp.status_code ≥ 400 then
    (s, [Request.tokenClientCredentials], [LogEntry.authTokenFailure])
  else
    (update_tokens now tokenResp.data s, [Request.tokenClientCredentials], [])

/-- Embeds `_refresh_auth_token`: with `_refresh_token is None` fall back to the
full exchange; otherwise use the refresh grant, and on HTTP ≥ 400 print a
diagnostic and leave the stored tokens in place.  Reading a never-assigned
`_refresh_token` raises. -/
def refresh_auth_token (now : Int) (tokenResp : TokenEndpointResponse)
    (s : ClientState) :
    Except PyError Unit × ClientState × List Request × List LogEntry :=
  match s.refresh_token with
  | Attr.unset =>
    (Except.error (PyError.attributeError "_refresh_token"), s, [], [])
  | Attr.val none =>
    let r := get_auth_token now tokenResp s
    (Except.ok (), r.1, r.2.1, r.2.2)
  | Attr.val (some _) =>
    if tokenResp.status_code ≥ 400 then
      (Except.ok (), s, [Request.tokenRefresh], [LogEntry.refreshFailure])
    else
      (Except.ok (), update_tokens now tokenResp.data s,
       [Request.tokenRefresh], [])

/-- The header dictionary `_get_headers` builds. -/
structure Headers where
  content_type : String
  authorization : String
deriving Repr, DecidableEq

/-- Python's f-string rendering of the access token inside
`f"Bearer {self._access_token}"` (`None` prints as `"None"`). -/
def renderToken : Option String → String
  | some t => t
  | none => "None"

/-- Embeds `_get_headers`: refresh when `datetime.now() > self._last_refreshed_at`
(a strict comparison), ignore the refresh's outcome, and build bearer
headers from whatever access token is current afterwards.  Reading a
never-assigned `_last_refreshed_at` (or `_access_token`) raises. -/
def get_headers (now : Int) (tokenResp : TokenEndpointResponse)
    (s : ClientState) :
    Except PyError Headers × ClientState × List Request × List LogEntry :=
  match s.last_refreshed_at with
  | Attr.unset =>
    (Except.error (PyError.attributeError "_last_refreshed_at"), s, [], [])
  | Attr.val deadline =>
    let step :=
      if now > deadline then refresh_auth_token now tokenResp s
      else (Except.ok (), s, [], [])
    match step.1 with
    | Except.error e => (Except.error e, step.2.1, step.2.2.1, step.2.2.2)
    | Except.ok _ =>
      match step.2.1.access_token with
      | Attr.unset =>
        (Except.error (PyError.attributeError "_access_token"),
         step.2.1, step.2.2.1, step.2.2.2)
      | Attr.val tok =>
        (Except.ok { content_type := "application/json",
                     authorization := "Bearer " ++ renderToken tok },
         step.2.1, step.2.2.1, step.2.2.2)

/-- Url assembly of `_get`/`_delete`/`_get_file`: `params` is embedded as
its already-url-encoded query string; `if params:` is a truthiness test,
so `None` and an empty dict (whose encoding is the empty string) skip the
append. -/
def buildUrl (apiUrl path : String) (params : Option String) : String :=
  match params with
  | none => apiUrl ++ path
  | some q => if q = "" then apiUrl ++ path else apiUrl ++ path ++ "?" ++ q

/-- Embeds `_post`: ensure a token via `_get_headers`, issue one POST to
`api_url + url`, and classify: status ≥ 400 prints the relative path with
the status and returns `None`; otherwise the parsed JSON body is returned,
with an unparsable body mapped to `None` rather than an exception. -/
def client_post {J P : Type} (now : Int) (tokenResp : TokenEndpointResponse)
    (resp : HttpResponse J) (url : String) (_payload : P) (s : ClientState) :
    Except PyError (Option J) × ClientState × List Request × List LogEntry :=
  match get_headers now tokenResp s with
  | (Except.error e, s1, reqs, logs) => (Except.error e, s1, reqs, logs)
  | (Except.ok _, s1, reqs, logs) =>
    let reqs := reqs ++ [Request.http "POST" (s.api_url ++ url)]
    if resp.status_code ≥ 400 then
      (Except.ok none, s1, reqs,
       logs ++ [LogEntry.httpFailure "POST" url resp.status_code])
    else
      (Except.ok resp.jsonBody, s1, reqs, logs)

/-- Embeds `_post_file`: multipart POST of a (name, stream, MIME-type) triple
with an optional JSON body part; response classification is identical to
`_post`. -/
def client_post_file {J B : Type} (now : Int) (tokenResp : TokenEndpointResponse)
    (resp : HttpResponse J) (url : String) (_file_data : String × B × String)
    (_body : Option J) (s : ClientState) :
    Except PyError (Option J) × ClientState × List Request × List LogEntry :=
  match get_headers now tokenResp s with
  | (Except.error e, s1, reqs, logs) => (Except.error e, s1, reqs, logs)
  | (Except.ok _, s1, reqs, logs) =>
    let reqs := reqs ++ [Request.http "POST" (s.api_url ++ url)]
    if resp.status_code ≥ 400 then
      (Except.ok none, s1, reqs,
       logs ++ [LogEntry.httpFailure "POST" url resp.status_code])
    else
      (Except.ok resp.jsonBody, s1, reqs, logs)

/-- Embeds `_put`: as `_post`, with the PUT verb. -/
def client_put {J P : Type} (now : Int) (tokenResp : TokenEndpointResponse)
    (resp : HttpResponse J) (url : String) (_payload : P) (s : ClientState) :
    Except PyError (Option J) × ClientState × List Request × List LogEntry :=
  match get_headers now tokenResp s with
  | (Except.error e, s1, reqs, logs) => (Except.error e, s1, reqs, logs)
  | (Except.ok _, s1, reqs, logs) =>
    let reqs := reqs ++ [Request.http "PUT" (s.api_url ++ url)]
    if resp.status_code ≥ 400 then
      (Except.ok none, s1, reqs,
       logs ++ [LogEntry.httpFailure "PUT" url resp.status_code])
    else
      (Except.ok resp.jsonBody, s1, reqs, logs)

/-- Embeds `_get`: as `_post` with the GET verb and optional query parameters;
the source logs the full url (base, path and query), which contains the
requested path. -/
def client_get {J : Type} (now : Int) (tokenResp : TokenEndpointResponse)
    (resp : HttpResponse J) (url : String) (params : Option String)
    (s : ClientState) :
    Except PyError (Option J) × ClientState × List Request × List LogEntry :=
  match get_headers now tokenResp s with
  | (Except.error e, s1, reqs, logs) => (Except.error e, s1, reqs, logs)
  | (Except.ok _, s1, reqs, logs) =>
    let reqs := reqs ++ [Request.http "GET" (buildUrl s.api_url url params)]
    if resp.status_code ≥ 400 then
      (Except.ok none, s1, reqs,
       logs ++ [LogEntry.httpFailure "GET" (buildUrl s.api_url url params)
         resp.status_code])
    else
      (Except.ok resp.jsonBody, s1, reqs, logs)

/-- Embeds `_delete`: as `_get`, with the DELETE verb. -/
def client_delete {J : Type} (now : Int) (tokenResp : TokenEndpointResponse)
    (resp : HttpResponse J) (url : String) (params : Option String)
    (s : ClientState) :
    Except PyError (Option J) × ClientState × List Request × List LogEntry :=
  match get_headers now tokenResp s with
  | (Except.error e, s1, reqs, logs) => (Except.error e, s1, reqs, logs)
  | (Except.ok _, s1, reqs, logs) =>
    let reqs := reqs ++ [Request.http "DELETE" (buildUrl s.api_url url params)]
    if resp.status_code ≥ 400 then
      (Except.ok none, s1, reqs,
       logs ++ [LogEntry.httpFailure "DELETE" (buildUrl s.api_url url params)
         resp.status_code])
    else
      (Except.ok resp.jsonBody, s1, reqs, logs)

/-- Embeds `_get_file`: streaming GET; on a success status the declared
`Content-Type` is checked against the allow-list before anything is
written, a violation printing a diagnostic and returning `None`; on an
allowed type the body is streamed to `download_path`, which is returned.
The final component lists the paths written to disk. -/
def client_get_file {J : Type} (now : Int) (tokenResp : TokenEndpointResponse)
    (resp : HttpResponse J) (url : String) (download_path : String)
    (params : Option String) (s : ClientState) :
    Except PyError (Option String) × ClientState × List Request ×
      List LogEntry × List String :=
  match get_headers now tokenResp s with
  | (Except.error e, s1, reqs, logs) => (Except.error e, s1, reqs, logs, [])
  | (Except.ok _, s1, reqs, logs) =>
    let reqs := reqs ++ [Request.http "GET" (buildUrl s.api_url url params)]
    if resp.status_code ≥ 400 then
      (Except.ok none, s1, reqs,
       logs ++ [LogEntry.httpFailure "GET" (buildUrl s.api_url url params)
         resp.status_code], [])
    else if resp.contentTypeHeader ∈ VALID_CONTENT_TYPES then
      (Except.ok (some download_path), s1, reqs, logs, [download_path])
    else
      (Except.ok none, s1, reqs,
       logs ++ [LogEntry.invalidContentType resp.contentTypeHeader], [])

/-- Embeds `KaleidoscopeClient.__init__`: store the base url (the production url
when the argument is absent or empty, a truthiness test) and the
credential pair — the token attributes start unset, the source only
annotates them — then run the client-credentials exchange.  The
constructor is total: a failed exchange leaves the token attributes unset
and still returns. -/
def client_init (client_id client_secret : String) (url : Option String)
    (now : Int) (tokenResp : TokenEndpointResponse) :
    ClientState × List Request × List LogEntry :=
  let s : ClientState :=
    { api_url :=
        match url with
        | none => PROD_API_URL
        | some u => if u = "" then PROD_API_URL else u,
      client_id := client_id, client_secret := client_secret,
      access_token := Attr.unset, refresh_token := Attr.unset,
      last_refreshed_at := Attr.unset }
  get_auth_token now tokenResp s

/-- The token-endpoint requests an authenticated call issues before its
main request: exactly one refresh (client-credentials when no refresh
token is held) when the current time is strictly past the stored
deadline, none otherwise. -/
def tokenAttemptRequests (now d : Int) (r : Option String) : List Request :=
  if now > d then
    match r with
    | none => [Request.tokenClientCredentials]
    | some _ => [Request.tokenRefresh]
  else []

theorem get_headers_ok (now : Int) (tokenResp : TokenEndpointResponse)
    (s : ClientState) (a r : Option String) (d : Int)
    (ha : s.access_token = Attr.val a) (hr : s.refresh_token = Attr.val r)
    (hd : s.last_refreshed_at = Attr.val d) :
    ∃ hdrs s1 tlogs, get_headers now tokenResp s =
      (Except.ok hdrs, s1, tokenAttemptRequests now d r, tlogs) := by
  simp only [get_headers, hd, tokenAttemptRequests]
  by_cases hnow : now > d
  · simp only [if_pos hnow, refresh_auth_token, hr]
    cases r with
    | none =>
      simp only [get_auth_token]
      by_cases hst : tokenResp.status_code ≥ 400
      · simp only [if_pos hst, ha]
        exact ⟨_, _, _, rfl⟩
      · simp only [if_neg hst, update_tokens]
        exact ⟨_, _, _, rfl⟩
    | some rt =>
      by_cases hst : tokenResp.status_code ≥ 400
      · simp only [if_pos hst, ha]
        exact ⟨_, _, _, rfl⟩
      · simp only [if_neg hst, update_tokens]
        exact ⟨_, _, _, rfl⟩
  · simp only [if_neg hnow, ha]
    exact ⟨_, _, _, rfl⟩

theorem get_headers_fresh (now : Int) (tokenResp : TokenEndpointResponse)
    (s : ClientState) (a : Option String) (d : Int)
    (ha : s.access_token = Attr.val a)
    (hd : s.last_refreshed_at = Attr.val d) (hnow : ¬ now > d) :
    get_headers now tokenResp s =
      (Except.ok { content_type := "application/json",
                   authorization := "Bearer " ++ renderToken a }, s, [], []) := by
  simp only [get_headers, hd, if_neg hnow, ha]

theorem get_headers_refresh_failed (now : Int)
    (tokenResp : TokenEndpointResponse) (s : ClientState)
    (a : Option String) (rt : String) (d : Int)
    (ha : s.access_token = Attr.val a)
    (hr : s.refresh_token = Attr.val (some rt))
    (hd : s.last_refreshed_at = Attr.val d) (hnow : now > d)
    (hst : tokenResp.status_code ≥ 400) :
    get_headers now tokenResp s =
      (Except.ok { content_type := "application/json",
                   authorization := "Bearer " ++ renderToken a },
       s, [Request.tokenRefresh], [LogEntry.refreshFailure]) := by
  simp only [get_headers, hd, if_pos hnow, refresh_auth_token, hr,
    if_pos hst, ha]

theorem get_headers_exchange_failed (now : Int)
    (tokenResp : TokenEndpointResponse) (s : ClientState)
    (a : Option String) (d : Int)
    (ha : s.access_token = Attr.val a)
    (hr : s.refresh_token = Attr.val none)
    (hd : s.last_refreshed_at = Attr.val d) (hnow : now > d)
    (hst : tokenResp.status_code ≥ 400) :
    get_headers now tokenResp s =
      (Except.ok { content_type := "application/json",
                   authorization := "Bearer " ++ renderToken a },
       s, [Request.tokenClientCredentials], [LogEntry.authTokenFailure]) := by
  simp only [get_headers, hd, if_pos hnow, refresh_auth_token, hr,
    get_auth_token, if_pos hst, ha]

theorem client_get_spec {J : Type} (now : Int)
    (tokenResp : TokenEndpointResponse) (resp : HttpResponse J)
    (url : String) (params : Option String) (s : ClientState)
    (hdrs : Headers) (s1 : ClientState) (treqs : List Request)
    (tlogs : List LogEntry)
    (hh : get_headers now tokenResp s = (Except.ok hdrs, s1, treqs, tlogs)) :
    client_get now tokenResp resp url params s =
      (Except.ok (if resp.status_code ≥ 400 then none else resp.jsonBody),
       s1, treqs ++ [Request.http "GET" (buildUrl s.api_url url params)],
       if resp.status_code ≥ 400 then
         tlogs ++ [LogEntry.httpFailure "GET" (buildUrl s.api_url url params)
           resp.status_code]
       else tlogs) := by
  simp only [client_get, hh]
  by_cases hst : resp.status_code ≥ 400
  · simp only [if_pos hst]
  · simp only [if_neg hst]

theorem client_delete_spec {J : Type} (now : Int)
    (tokenResp : TokenEndpointResponse) (resp : HttpResponse J)
    (url : String) (params : Option String) (s : ClientState)
    (hdrs : Headers) (s1 : ClientState) (treqs : List Request)
    (tlogs : List LogEntry)
    (hh : get_headers now tokenResp s = (Except.ok hdrs, s1, treqs, tlogs)) :
    client_delete now tokenResp resp url params s =
      (Except.ok (if resp.status_code ≥ 400 then none else resp.jsonBody),
       s1, treqs ++ [Request.http "DELETE" (buildUrl s.api_url url params)],
       if resp.status_code ≥ 400 then
         tlogs ++ [LogEntry.httpFailure "DELETE"
           (buildUrl s.api_url url params) resp.status_code]
       else tlogs) := by
  simp only [client_delete, hh]
  by_cases hst : resp.status_code ≥ 400
  · simp only [if_pos hst]
  · simp only [if_neg hst]

theorem client_post_spec {J P : Type} (now : Int)
    (tokenResp : TokenEndpointResponse) (resp : HttpResponse J)
    (url : String) (payload : P) (s : ClientState)
    (hdrs : Headers) (s1 : ClientState) (treqs : List Request)
    (tlogs : List LogEntry)
    (hh : get_headers now tokenResp s = (Except.ok hdrs, s1, treqs, tlogs)) :
    client_post now tokenResp resp url payload s =
      (Except.ok (if resp.status_code ≥ 400 then none else resp.jsonBody),
       s1, treqs ++ [Request.http "POST" (s.api_url ++ url)],
       if resp.status_code ≥ 400 then
         tlogs ++ [LogEntry.httpFailure "POST" url resp.status_code]
       else tlogs) := by
  simp only [client_post, hh]
  by_cases hst : resp.status_code ≥ 400
  · simp only [if_pos hst]
  · simp only [if_neg hst]

theorem client_put_spec {J P : Type} (now : Int)
    (tokenResp : TokenEndpointResponse) (resp : HttpResponse J)
    (url : String) (payload : P) (s : ClientState)
    (hdrs : Headers) (s1 : ClientState) (treqs : List Request)
    (tlogs : List LogEntry)
    (hh : get_headers now tokenResp s = (Except.ok hdrs, s1, treqs, tlogs)) :
    client_put now tokenResp resp url payload s =
      (Except.ok (if resp.status_code ≥ 400 then none else resp.jsonBody),
       s1, treqs ++ [Request.http "PUT" (s.api_url ++ url)],
       if resp.status_code ≥ 400 then
         tlogs ++ [LogEntry.httpFailure "PUT" url resp.status_code]
       else tlogs) := by
  simp only [client_put, hh]
  by_cases hst : resp.status_code ≥ 400
  · simp only [if_pos hst]
  · simp only [if_neg hst]

theorem client_post_file_spec {J B : Type} (now : Int)
    (tokenResp : TokenEndpointResponse) (resp : HttpResponse J)
    (url : String) (fd : String × B × String) (body : Option J)
    (s : ClientState) (hdrs : Headers) (s1 : ClientState)
    (treqs : List Request) (tlogs : List LogEntry)
    (hh : get_headers now tokenResp s = (Except.ok hdrs, s1, treqs, tlogs)) :
    client_post_file now tokenResp resp url fd body s =
      (Except.ok (if resp.status_code ≥ 400 then none else resp.jsonBody),
       s1, treqs ++ [Request.http "POST" (s.api_url ++ url)],
       if resp.status_code ≥ 400 then
         tlogs ++ [LogEntry.httpFailure "POST" url resp.status_code]
       else tlogs) := by
  simp only [client_post_file, hh]
  by_cases hst : resp.status_code ≥ 400
  · simp only [if_pos hst]
  · simp only [if_neg hst]

theorem client_get_file_spec {J : Type} (now : Int)
    (tokenResp : TokenEndpointResponse) (resp : HttpResponse J)
    (url : String) (download_path : String) (params : Option String)
    (s : ClientState) (hdrs : Headers) (s1 : ClientState)
    (treqs : List Request) (tlogs : List LogEntry)
    (hh : get_headers now tokenResp s = (Except.ok hdrs, s1, treqs, tlogs)) :
    client_get_file now tokenResp resp url download_path params s =
      (if resp.status_code ≥ 400 then
        (Except.ok none, s1,
         treqs ++ [Request.http "GET" (buildUrl s.api_url url params)],
         tlogs ++ [LogEntry.httpFailure "GET" (buildUrl s.api_url url params)
           resp.status_code], [])
       else if resp.contentTypeHeader ∈ VALID_CONTENT_TYPES then
        (Except.ok (some download_path), s1,
         treqs ++ [Request.http "GET" (buildUrl s.api_url url params)],
         tlogs, [download_path])
       else
        (Except.ok none, s1,
         treqs ++ [Request.http "GET" (buildUrl s.api_url url params)],
         tlogs ++ [LogEntry.invalidContentType resp.contentTypeHeader], [])) := by
  simp only [client_get_file, hh]

theorem client_init_failed (cid sec : String) (url : Option String)
    (now : Int) (tokenResp : TokenEndpointResponse)
    (h : tokenResp.status_code ≥ 400) :
    (client_init cid sec url now tokenResp).1.access_token = Attr.unset ∧
    (client_init cid sec url now tokenResp).1.refresh_token = Attr.unset ∧
    (client_init cid sec url now tokenResp).1.last_refreshed_at = Attr.unset := by
  simp [client_init, get_auth_token, if_pos h]

theorem client_get_error_of_unset {J : Type} (now : Int)
    (tokenResp : TokenEndpointResponse) (resp : HttpResponse J)
    (url : String) (params : Option String) (s : ClientState)
    (h : s.last_refreshed_at = Attr.unset) :
    (client_get now tokenResp resp url params s).1 =
      Except.error (PyError.attributeError "_last_refreshed_at") := by
  simp only [client_get, get_headers, h]

theorem client_delete_error_of_unset {J : Type} (now : Int)
    (tokenResp : TokenEndpointResponse) (resp : HttpResponse J)
    (url : String) (params : Option String) (s : ClientState)
    (h : s.last_refreshed_at = Attr.unset) :
    (client_delete now tokenResp resp url params s).1 =
      Except.error (PyError.attributeError "_last_refreshed_at") := by
  simp only [client_delete, get_headers, h]

theorem client_post_error_of_unset {J P : Type} (now : Int)
    (tokenResp : TokenEndpointResponse) (resp : HttpResponse J)
    (url : String) (payload : P) (s : ClientState)
    (h : s.last_refreshed_at = Attr.unset) :
    (client_post now tokenResp resp url payload s).1 =
      Except.error (PyError.attributeError "_last_refreshed_at") := by
  simp only [client_post, get_headers, h]

theorem client_put_error_of_unset {J P : Type} (now : Int)
    (tokenResp : TokenEndpointResponse) (resp : HttpResponse J)
    (url : String) (payload : P) (s : ClientState)
    (h : s.last_refreshed_at = Attr.unset) :
    (client_put now tokenResp resp url payload s).1 =
      Except.error (PyError.attributeError "_last_refreshed_at") := by
  simp only [client_put, get_headers, h]

theorem client_post_file_error_of_unset {J B : Type} (now : Int)
    (tokenResp : TokenEndpointResponse) (resp : HttpResponse J)
    (url : String) (fd : String × B × String) (body : Option J)
    (s : ClientState) (h : s.last_refreshed_at = Attr.unset) :
    (client_post_file now tokenResp resp url fd body s).1 =
      Except.error (PyError.attributeError "_last_refreshed_at") := by
  simp only [client_post_file, get_headers, h]

theorem client_get_file_error_of_unset {J : Type} (now : Int)
    (tokenResp : TokenEndpointResponse) (resp : HttpResponse J)
    (url : String) (download_path : String) (params : Option String)
    (s : ClientState) (h : s.last_refreshed_at = Attr.unset) :
    (client_get_file now tokenResp resp url download_path params s).1 =
      Except.error (PyError.attributeError "_last_refreshed_at") := by
  simp only [client_get_file, get_headers, h]

/-- Equality on `Except` results is decidable componentwise (used to
evaluate concrete call outcomes). -/
instance {ε α : Type} [DecidableEq ε] [DecidableEq α] :
    DecidableEq (Except ε α)
  | Except.error e, Except.error f =>
    if h : e = f then Decidable.isTrue (by rw [h])
    else Decidable.isFalse (by intro hc; injection hc with h2; exact h h2)
  | Except.error _, Except.ok _ =>
    Decidable.isFalse (fun hc => Except.noConfusion hc)
  | Except.ok _, Except.error _ =>
    Decidable.isFalse (fun hc => Except.noConfusion hc)
  | Except.ok a, Except.ok b =>
    if h : a = b then Decidable.isTrue (by rw [h])
    else Decidable.isFalse (by intro hc; injection hc with h2; exact h h2)

/-- A token-endpoint response rejecting the supplied credentials. -/
def tokenRespDenied : TokenEndpointResponse :=
  { status_code := 401,
    data := { access_token := none, refresh_token := none, expires_in := 0 } }

/-- A successful JSON response used when exercising the call primitives. -/
def respOkJson : HttpResponse String :=
  { status_code := 200, jsonBody := some "{}",
    contentTypeHeader := "application/json" }

/-- C1 corrected: constructing with invalid credentials does not raise and
leaves the client with no token — the three token attributes stay unset —
but every subsequent call-level primitive then raises `AttributeError`
on the unset `_last_refreshed_at` attribute instead of returning an
absent result. -/
theorem client_invalid_credentials_raises {J P B : Type}
    (cid sec : String) (url : Option String) (now now2 : Int)
    (tokenResp tokenResp2 : TokenEndpointResponse)
    (resp : HttpResponse J) (path dl : String) (params : Option String)
    (payload : P) (fd : String × B × String) (body : Option J)
    (hfail : tokenResp.status_code ≥ 400) :
    (client_init cid sec url now tokenResp).1.access_token = Attr.unset ∧
    (client_init cid sec url now tokenResp).1.refresh_token = Attr.unset ∧
    (client_init cid sec url now tokenResp).1.last_refreshed_at = Attr.unset ∧
    (client_get now2 tokenResp2 resp path params
        (client_init cid sec url now tokenResp).1).1 =
      Except.error (PyError.attributeError "_last_refreshed_at") ∧
    (client_post now2 tokenResp2 resp path payload
        (client_init cid sec url now tokenResp).1).1 =
      Except.error (PyError.attributeError "_last_refreshed_at") ∧
    (client_put now2 tokenResp2 resp path payload
        (client_init cid sec url now tokenResp).1).1 =
      Except.error (PyError.attributeError "_last_refreshed_at") ∧
    (client_delete now2 tokenResp2 resp path params
        (client_init cid sec url now tokenResp).1).1 =
      Except.error (PyError.attributeError "_last_refreshed_at") ∧
    (client_post_file now2 tokenResp2 resp path fd body
        (client_init cid sec url now tokenResp).1).1 =
      Except.error (PyError.attributeError "_last_refreshed_at") ∧
    (client_get_file now2 tokenResp2 resp path dl params
        (client_init cid sec url now tokenResp).1).1 =
      Except.error (PyError.attributeError "_last_refreshed_at") := by
  obtain ⟨hA, hR, hL⟩ := client_init_failed cid sec url now tokenResp hfail
  exact ⟨hA, hR, hL,
    client_get_error_of_unset now2 tokenResp2 resp path params _ hL,
    client_post_error_of_unset now2 tokenResp2 resp path payload _ hL,
    client_put_error_of_unset now2 tokenResp2 resp path payload _ hL,
    client_delete_error_of_unset now2 tokenResp2 resp path params _ hL,
    client_post_file_error_of_unset now2 tokenResp2 resp path fd body _ hL,
    client_get_file_error_of_unset now2 tokenResp2 resp path dl params _ hL⟩

/-- C1 counterexample: after construction with credentials the server
rejects (HTTP 401), `_get` raises `AttributeError` on the never-assigned
`_last_refreshed_at` — it does not return an absent result. -/
theorem client_invalid_credentials_counterexample :
    (client_get 5 tokenRespDenied respOkJson "/records" none
        (client_init "bad-id" "bad-secret" none 0 tokenRespDenied).1).1 =
      Except.error (PyError.attributeError "_last_refreshed_at") ∧
    (client_get 5 tokenRespDenied respOkJson "/records" none
        (client_init "bad-id" "bad-secret" none 0 tokenRespDenied).1).1 ≠
      Except.ok none := by
  decide

theorem client_invalid_credentials_raises_witness :
    (client_init "bad-id" "bad-secret" none 0 tokenRespDenied).1.access_token
        = Attr.unset ∧
    (client_init "bad-id" "bad-secret" none 0 tokenRespDenied).1.refresh_token
        = Attr.unset ∧
    (client_init "bad-id" "bad-secret" none 0
        tokenRespDenied).1.last_refreshed_at = Attr.unset ∧
    (client_get 5 tokenRespDenied respOkJson "/records" none
        (client_init "bad-id" "bad-secret" none 0 tokenRespDenied).1).1 =
      Except.error (PyError.attributeError "_last_refreshed_at") ∧
    (client_post 5 tokenRespDenied respOkJson "/records" "body"
        (client_init "bad-id" "bad-secret" none 0 tokenRespDenied).1).1 =
      Except.error (PyError.attributeError "_last_refreshed_at") ∧
    (client_put 5 tokenRespDenied respOkJson "/records" "body"
        (client_init "bad-id" "bad-secret" none 0 tokenRespDenied).1).1 =
      Except.error (PyError.attributeError "_last_refreshed_at") ∧
    (client_delete 5 tokenRespDenied respOkJson "/records" none
        (client_init "bad-id" "bad-secret" none 0 tokenRespDenied).1).1 =
      Except.error (PyError.attributeError "_last_refreshed_at") ∧
    (client_post_file 5 tokenRespDenied respOkJson "/records"
        ("f.csv", "bytes", "text/csv") none
        (client_init "bad-id" "bad-secret" none 0 tokenRespDenied).1).1 =
      Except.error (PyError.attributeError "_last_refreshed_at") ∧
    (client_get_file 5 tokenRespDenied respOkJson "/records" "/tmp/out" none
        (client_init "bad-id" "bad-secret" none 0 tokenRespDenied).1).1 =
      Except.error (PyError.attributeError "_last_refreshed_at") :=
  client_invalid_credentials_raises "bad-id" "bad-secret" none 0 5
    tokenRespDenied tokenRespDenied respOkJson "/records" "/tmp/out" none
    "body" ("f.csv", "bytes", "text/csv") none (by decide)

/-- C2 corrected: the deadline stored by a successful exchange is issuance
time plus the server-declared lifetime minus 10 minutes; and each outbound
primitive issues one token request — the refresh grant when a refresh
token is held, the client-credentials exchange otherwise — before its main
HTTP request exactly when the current time is strictly past that deadline
(the source compares `datetime.now() > self._last_refreshed_at`, so a call
at the deadline instant refreshes nothing). -/
theorem token_deadline_and_refresh_condition {J P B : Type}
    (now : Int) (data : TokenData) (s0 : ClientState)
    (tokenResp : TokenEndpointResponse) (resp : HttpResponse J)
    (s : ClientState) (a r : Option String) (d : Int)
    (path dl : String) (params : Option String) (payload : P)
    (fd : String × B × String) (body : Option J)
    (ha : s.access_token = Attr.val a) (hr : s.refresh_token = Attr.val r)
    (hd : s.last_refreshed_at = Attr.val d) :
    (update_tokens now data s0).last_refreshed_at =
      Attr.val (now + (data.expires_in - 60 * 10)) ∧
    (client_get now tokenResp resp path params s).2.2.1 =
      tokenAttemptRequests now d r ++
        [Request.http "GET" (buildUrl s.api_url path params)] ∧
    (client_post now tokenResp resp path payload s).2.2.1 =
      tokenAttemptRequests now d r ++
        [Request.http "POST" (s.api_url ++ path)] ∧
    (client_put now tokenResp resp path payload s).2.2.1 =
      tokenAttemptRequests now d r ++
        [Request.http "PUT" (s.api_url ++ path)] ∧
    (client_delete now tokenResp resp path params s).2.2.1 =
      tokenAttemptRequests now d r ++
        [Request.http "DELETE" (buildUrl s.api_url path params)] ∧
    (client_post_file now tokenResp resp path fd body s).2.2.1 =
      tokenAttemptRequests now d r ++
        [Request.http "POST" (s.api_url ++ path)] ∧
    (client_get_file now tokenResp resp path dl params s).2.2.1 =
      tokenAttemptRequests now d r ++
        [Request.http "GET" (buildUrl s.api_url path params)] := by
  obtain ⟨hdrs, s1, tlogs, hh⟩ := get_headers_ok now tokenResp s a r d ha hr hd
  refine ⟨rfl, ?_, ?_, ?_, ?_, ?_, ?_⟩
  · rw [client_get_spec now tokenResp resp path params s hdrs s1
      (tokenAttemptRequests now d r) tlogs hh]
  · rw [client_post_spec now tokenResp resp path payload s hdrs s1
      (tokenAttemptRequests now d r) tlogs hh]
  · rw [client_put_spec now tokenResp resp path payload s hdrs s1
      (tokenAttemptRequests now d r) tlogs hh]
  · rw [client_delete_spec now tokenResp resp path params s hdrs s1
      (tokenAttemptRequests now d r) tlogs hh]
  · rw [client_post_file_spec now tokenResp resp path fd body s hdrs s1
      (tokenAttemptRequests now d r) tlogs hh]
  · rw [client_get_file_spec now tokenResp resp path dl params s hdrs s1
      (tokenAttemptRequests now d r) tlogs hh]
    by_cases h1 : resp.status_code ≥ 400
    · simp only [if_pos h1]
    · by_cases h2 : resp.contentTypeHeader ∈ VALID_CONTENT_TYPES
      · simp only [if_neg h1, if_pos h2]
      · simp only [if_neg h1, if_neg h2]

/-- An authenticated client state whose refresh deadline is exactly 1000. -/
def clientAtDeadline : ClientState :=
  { api_url := "https://api.kaleidoscope.bio", client_id := "id",
    client_secret := "secret", access_token := Attr.val (some "tok"),
    refresh_token := Attr.val (some "refresh-tok"),
    last_refreshed_at := Attr.val 1000 }

/-- C2 counterexample: at current time 1000, equal to (hence `≥`) the
stored deadline, `_get` performs no token refresh at all — the only
request issued is the main GET — because the source refreshes only when
the current time strictly exceeds the deadline. -/
theorem token_refresh_at_deadline_counterexample :
    (1000 : Int) ≥ 1000 ∧
    (client_get 1000 tokenRespDenied respOkJson "/records" none
        clientAtDeadline).2.2.1 =
      [Request.http "GET" "https://api.kaleidoscope.bio/records"] := by
  decide

/-- Token body with a one-hour lifetime. -/
def tokenDataHour : TokenData :=
  { access_token := some "tok2", refresh_token := some "ref2",
    expires_in := 3600 }

theorem token_deadline_and_refresh_condition_witness :
    (update_tokens 2000 tokenDataHour clientAtDeadline).last_refreshed_at =
      Attr.val (2000 + (tokenDataHour.expires_in - 60 * 10)) ∧
    (client_get 2000 tokenRespDenied respOkJson "/records" none
        clientAtDeadline).2.2.1 =
      tokenAttemptRequests 2000 1000 (some "refresh-tok") ++
        [Request.http "GET" (buildUrl clientAtDeadline.api_url "/records" none)] ∧
    (client_post 2000 tokenRespDenied respOkJson "/records" "body"
        clientAtDeadline).2.2.1 =
      tokenAttemptRequests 2000 1000 (some "refresh-tok") ++
        [Request.http "POST" (clientAtDeadline.api_url ++ "/records")] ∧
    (client_put 2000 tokenRespDenied respOkJson "/records" "body"
        clientAtDeadline).2.2.1 =
      tokenAttemptRequests 2000 1000 (some "refresh-tok") ++
        [Request.http "PUT" (clientAtDeadline.api_url ++ "/records")] ∧
    (client_delete 2000 tokenRespDenied respOkJson "/records" none
        clientAtDeadline).2.2.1 =
      tokenAttemptRequests 2000 1000 (some "refresh-tok") ++
        [Request.http "DELETE" (buildUrl clientAtDeadline.api_url "/records" none)] ∧
    (client_post_file 2000 tokenRespDenied respOkJson "/records"
        ("f.csv", "bytes", "text/csv") none clientAtDeadline).2.2.1 =
      tokenAttemptRequests 2000 1000 (some "refresh-tok") ++
        [Request.http "POST" (clientAtDeadline.api_url ++ "/records")] ∧
    (client_get_file 2000 tokenRespDenied respOkJson "/records" "/tmp/out"
        none clientAtDeadline).2.2.1 =
      tokenAttemptRequests 2000 1000 (some "refresh-tok") ++
        [Request.http "GET" (buildUrl clientAtDeadline.api_url "/records" none)] :=
  token_deadline_and_refresh_condition 2000 tokenDataHour clientAtDeadline
    tokenRespDenied respOkJson clientAtDeadline (some "tok")
    (some "refresh-tok") 1000 "/records" "/tmp/out" none "body"
    ("f.csv", "bytes", "text/csv") none rfl rfl rfl

/-- C7: a failed refresh (HTTP ≥ 400 from the token endpoint) leaves the
stored access token, refresh token and deadline all unchanged and prints a
diagnostic; the enclosing call then proceeds with the stale token, issuing
exactly the one failed token request and the one main HTTP request — no
retry of either. -/
theorem failed_refresh_preserves_tokens {J : Type} (now : Int)
    (tokenResp : TokenEndpointResponse) (resp : HttpResponse J)
    (s : ClientState) (a : Option String) (rt : String) (d : Int)
    (path : String) (params : Option String)
    (ha : s.access_token = Attr.val a)
    (hr : s.refresh_token = Attr.val (some rt))
    (hd : s.last_refreshed_at = Attr.val d)
    (hst : tokenResp.status_code ≥ 400) :
    refresh_auth_token now tokenResp s =
      (Except.ok (), s, [Request.tokenRefresh], [LogEntry.refreshFailure]) ∧
    (now > d →
      (client_get now tokenResp resp path params s).2.1 = s ∧
      (client_get now tokenResp resp path params s).2.2.1 =
        [Request.tokenRefresh,
         Request.http "GET" (buildUrl s.api_url path params)]) := by
  constructor
  · simp only [refresh_auth_token, hr, if_pos hst]
  · intro hnow
    have hh := get_headers_refresh_failed now tokenResp s a rt d ha hr hd
      hnow hst
    rw [client_get_spec now tokenResp resp path params s _ s
      [Request.tokenRefresh] [LogEntry.refreshFailure] hh]
    exact ⟨rfl, rfl⟩

theorem failed_refresh_preserves_tokens_witness :
    refresh_auth_token 2000 tokenRespDenied clientAtDeadline =
      (Except.ok (), clientAtDeadline, [Request.tokenRefresh],
       [LogEntry.refreshFailure]) ∧
    ((2000 : Int) > 1000 →
      (client_get 2000 tokenRespDenied respOkJson "/records" none
          clientAtDeadline).2.1 = clientAtDeadline ∧
      (client_get 2000 tokenRespDenied respOkJson "/records" none
          clientAtDeadline).2.2.1 =
        [Request.tokenRefresh,
         Request.http "GET"
           (buildUrl clientAtDeadline.api_url "/records" none)]) :=
  failed_refresh_preserves_tokens 2000 tokenRespDenied respOkJson
    clientAtDeadline (some "tok") "refresh-tok" 1000 "/records" none
    rfl rfl rfl (by decide)

/-- C8: each JSON primitive — `_get`, `_post`, `_put`, `_delete`,
`_post_file` — returns `None` on HTTP ≥ 400 and prints a diagnostic
carrying the requested path (the full url for `_get`/`_delete`, the
relative path for the others, as in the source) and the status code;
on HTTP < 400 it returns the parsed JSON body, which is `None` — with no
exception — when the body is not valid JSON. -/
theorem primitive_response_classification {J P B : Type} (now : Int)
    (tokenResp : TokenEndpointResponse) (resp : HttpResponse J)
    (s : ClientState) (a r : Option String) (d : Int)
    (path : String) (params : Option String) (payload : P)
    (fd : String × B × String) (body : Option J)
    (ha : s.access_token = Attr.val a) (hr : s.refresh_token = Attr.val r)
    (hd : s.last_refreshed_at = Attr.val d) :
    ((client_get now tokenResp resp path params s).1 =
        Except.ok (if resp.status_code ≥ 400 then none else resp.jsonBody) ∧
      (resp.status_code ≥ 400 →
        LogEntry.httpFailure "GET" (buildUrl s.api_url path params)
            resp.status_code ∈
          (client_get now tokenResp resp path params s).2.2.2)) ∧
    ((client_post now tokenResp resp path payload s).1 =
        Except.ok (if resp.status_code ≥ 400 then none else resp.jsonBody) ∧
      (resp.status_code ≥ 400 →
        LogEntry.httpFailure "POST" path resp.status_code ∈
          (client_post now tokenResp resp path payload s).2.2.2)) ∧
    ((client_put now tokenResp resp path payload s).1 =
        Except.ok (if resp.status_code ≥ 400 then none else resp.jsonBody) ∧
      (resp.status_code ≥ 400 →
        LogEntry.httpFailure "PUT" path resp.status_code ∈
          (client_put now tokenResp resp path payload s).2.2.2)) ∧
    ((client_delete now tokenResp resp path params s).1 =
        Except.ok (if resp.status_code ≥ 400 then none else resp.jsonBody) ∧
      (resp.status_code ≥ 400 →
        LogEntry.httpFailure "DELETE" (buildUrl s.api_url path params)
            resp.status_code ∈
          (client_delete now tokenResp resp path params s).2.2.2)) ∧
    ((client_post_file now tokenResp resp path fd body s).1 =
        Except.ok (if resp.status_code ≥ 400 then none else resp.jsonBody) ∧
      (resp.status_code ≥ 400 →
        LogEntry.httpFailure "POST" path resp.status_code ∈
          (client_post_file now tokenResp resp path fd body s).2.2.2)) := by
  obtain ⟨hdrs, s1, tlogs, hh⟩ := get_headers_ok now tokenResp s a r d ha hr hd
  refine ⟨⟨?_, ?_⟩, ⟨?_, ?_⟩, ⟨?_, ?_⟩, ⟨?_, ?_⟩, ⟨?_, ?_⟩⟩
  · rw [client_get_spec now tokenResp resp path params s hdrs s1 _ tlogs hh]
  · intro hst
    rw [client_get_spec now tokenResp resp path params s hdrs s1 _ tlogs hh]
    simp only [if_pos hst]
    exact List.mem_append_right _ (List.mem_singleton_self _)
  · rw [client_post_spec now tokenResp resp path payload s hdrs s1 _ tlogs hh]
  · intro hst
    rw [client_post_spec now tokenResp resp path payload s hdrs s1 _ tlogs hh]
    simp only [if_pos hst]
    exact List.mem_append_right _ (List.mem_singleton_self _)
  · rw [client_put_spec now tokenResp resp path payload s hdrs s1 _ tlogs hh]
  · intro hst
    rw [client_put_spec now tokenResp resp path payload s hdrs s1 _ tlogs hh]
    simp only [if_pos hst]
    exact List.mem_append_right _ (List.mem_singleton_self _)
  · rw [client_delete_spec now tokenResp resp path params s hdrs s1 _ tlogs hh]
  · intro hst
    rw [client_delete_spec now tokenResp resp path params s hdrs s1 _ tlogs hh]
    simp only [if_pos hst]
    exact List.mem_append_right _ (List.mem_singleton_self _)
  · rw [client_post_file_spec now tokenResp resp path fd body s hdrs s1 _
      tlogs hh]
  · intro hst
    rw [client_post_file_spec now tokenResp resp path fd body s hdrs s1 _
      tlogs hh]
    simp only [if_pos hst]
    exact List.mem_append_right _ (List.mem_singleton_self _)

/-- A server-error response whose body is also not valid JSON. -/
def respServerError : HttpResponse String :=
  { status_code := 500, jsonBody := none, contentTypeHeader := "" }

theorem primitive_response_classification_witness :
    ((client_get 500 tokenRespDenied respServerError "/records" none
          clientAtDeadline).1 =
        Except.ok (if respServerError.status_code ≥ 400 then none
          else respServerError.jsonBody) ∧
      (respServerError.status_code ≥ 400 →
        LogEntry.httpFailure "GET"
            (buildUrl clientAtDeadline.api_url "/records" none)
            respServerError.status_code ∈
          (client_get 500 tokenRespDenied respServerError "/records" none
            clientAtDeadline).2.2.2)) ∧
    ((client_post 500 tokenRespDenied respServerError "/records" "body"
          clientAtDeadline).1 =
        Except.ok (if respServerError.status_code ≥ 400 then none
          else respServerError.jsonBody) ∧
      (respServerError.status_code ≥ 400 →
        LogEntry.httpFailure "POST" "/records" respServerError.status_code ∈
          (client_post 500 tokenRespDenied respServerError "/records" "body"
            clientAtDeadline).2.2.2)) ∧
    ((client_put 500 tokenRespDenied respServerError "/records" "body"
          clientAtDeadline).1 =
        Except.ok (if respServerError.status_code ≥ 400 then none
          else respServerError.jsonBody) ∧
      (respServerError.status_code ≥ 400 →
        LogEntry.httpFailure "PUT" "/records" respServerError.status_code ∈
          (client_put 500 tokenRespDenied respServerError "/records" "body"
            clientAtDeadline).2.2.2)) ∧
    ((client_delete 500 tokenRespDenied respServerError "/records" none
          clientAtDeadline).1 =
        Except.ok (if respServerError.status_code ≥ 400 then none
          else respServerError.jsonBody) ∧
      (respServerError.status_code ≥ 400 →
        LogEntry.httpFailure "DELETE"
            (buildUrl clientAtDeadline.api_url "/records" none)
            respServerError.status_code ∈
          (client_delete 500 tokenRespDenied respServerError "/records" none
            clientAtDeadline).2.2.2)) ∧
    ((client_post_file 500 tokenRespDenied respServerError "/records"
          ("f.csv", "bytes", "text/csv") none clientAtDeadline).1 =
        Except.ok (if respServerError.status_code ≥ 400 then none
          else respServerError.jsonBody) ∧
      (respServerError.status_code ≥ 400 →
        LogEntry.httpFailure "POST" "/records" respServerError.status_code ∈
          (client_post_file 500 tokenRespDenied respServerError "/records"
            ("f.csv", "bytes", "text/csv") none clientAtDeadline).2.2.2)) :=
  primitive_response_classification 500 tokenRespDenied respServerError
    clientAtDeadline (some "tok") (some "refresh-tok") 1000 "/records" none
    "body" ("f.csv", "bytes", "text/csv") none rfl rfl rfl

/-- C9: `_get_file` validates the declared `Content-Type` before touching
disk: a type outside the allow-list yields `None` with nothing written,
even on a success status; an allowed type on a success status streams the
body to the destination and returns that path. -/
theorem get_file_content_type_allowlist {J : Type} (now : Int)
    (tokenResp : TokenEndpointResponse) (resp : HttpResponse J)
    (s : ClientState) (a r : Option String) (d : Int)
    (url download_path : String) (params : Option String)
    (ha : s.access_token = Attr.val a) (hr : s.refresh_token = Attr.val r)
    (hd : s.last_refreshed_at = Attr.val d) :
    (resp.contentTypeHeader ∉ VALID_CONTENT_TYPES →
      (client_get_file now tokenResp resp url download_path params s).1 =
        Except.ok none ∧
      (client_get_file now tokenResp resp url download_path
          params s).2.2.2.2 = []) ∧
    (resp.status_code < 400 → resp.contentTypeHeader ∈ VALID_CONTENT_TYPES →
      (client_get_file now tokenResp resp url download_path params s).1 =
        Except.ok (some download_path) ∧
      (client_get_file now tokenResp resp url download_path
          params s).2.2.2.2 = [download_path]) := by
  obtain ⟨hdrs, s1, tlogs, hh⟩ := get_headers_ok now tokenResp s a r d ha hr hd
  rw [client_get_file_spec now tokenResp resp url download_path params s
    hdrs s1 _ tlogs hh]
  constructor
  · intro hct
    by_cases hst : resp.status_code ≥ 400
    · simp [if_pos hst]
    · simp [if_neg hst, if_neg hct]
  · intro hst hct
    have hst' : ¬ resp.status_code ≥ 400 := by omega
    simp [if_neg hst', if_pos hct]

/-- A success response declaring the CSV content type. -/
def respCsv : HttpResponse String :=
  { status_code := 200, jsonBody := none, contentTypeHeader := "text/csv" }

theorem get_file_content_type_allowlist_witness :
    (respCsv.contentTypeHeader ∉ VALID_CONTENT_TYPES →
      (client_get_file 10 tokenRespDenied respCsv "/exports/1" "/tmp/out.csv"
          none clientAtDeadline).1 = Except.ok none ∧
      (client_get_file 10 tokenRespDenied respCsv "/exports/1" "/tmp/out.csv"
          none clientAtDeadline).2.2.2.2 = []) ∧
    (respCsv.status_code < 400 →
      respCsv.contentTypeHeader ∈ VALID_CONTENT_TYPES →
      (client_get_file 10 tokenRespDenied respCsv "/exports/1" "/tmp/out.csv"
          none clientAtDeadline).1 = Except.ok (some "/tmp/out.csv") ∧
      (client_get_file 10 tokenRespDenied respCsv "/exports/1" "/tmp/out.csv"
          none clientAtDeadline).2.2.2.2 = ["/tmp/out.csv"]) :=
  get_file_content_type_allowlist 10 tokenRespDenied respCsv
    clientAtDeadline (some "tok") (some "refresh-tok") 1000 "/exports/1"
    "/tmp/out.csv" none rfl rfl rfl


end Kalpy
